import Mathlib

/-!
Verification of the order classification-and-decode core of the
uniswapx-service repository: a shallow embedding of
`PostOrderBodyParser` (fromPostRequest, tryParseRelayOrder,
tryParseDutchV1Order, tryParseDutchV2Order, tryParseLimitOrder,
tryParseDutchOrder) together with theorems settling the claims about
the dispatcher, the per-variant decoders and the legacy custom-reactor
fallback.

The external uniswapx-sdk parsers (UniswapXOrderParser, RelayOrderParser,
CosignedV2DutchOrder.parse, DutchOrder.parse) are dependencies, not
repository code: they are modelled as an explicit record of parsing
functions over which the theorems quantify, so every theorem holds for
every possible SDK behaviour.  Exceptions become `Except` values; the
`catch`/re-`throw` structure of the source is mirrored by matches on
those values.
-/

namespace UniswapXService

/-- Order type tags as produced by the SDK `getOrderType` derivations and
by the `orderType` property of the order model classes.  The SDK enum has
further members beyond the four this service handles; `Other` stands for
any of those. -/
inductive OrderTypeTag where
  | Dutch
  | Dutch_V2
  | Limit
  | Relay
  | Other (name : String)
deriving DecidableEq, Repr

/-- Declared order types admitted by the post-order request schema: the
`orderType` field of a request body, when present, is one of these four. -/
inductive DeclaredOrderType where
  | Dutch
  | Dutch_V2
  | Limit
  | Relay
deriving DecidableEq, Repr

/-- Decoded Dutch (V1 / base schema) order data, as returned by the SDK
parsers.  The dispatcher inspects `info.reactor` (here `reactor`) on the
fallback path; the decay timestamps are the shape the SDK classification
of Dutch versus Limit is based on.  Remaining decoded fields are
irrelevant to the dispatch logic and are represented by `nonce`. -/
structure SDKDutchOrder where
  reactor : String
  decayStartTime : Int
  decayEndTime : Int
  nonce : Nat
deriving DecidableEq, Repr

/-- Decoded cosigned V2 Dutch order data (CosignedV2DutchOrder).  The
dispatcher never inspects its fields, so it is opaque here. -/
structure SDKV2DutchOrder where
  cosigner : String
  encoded : String
deriving DecidableEq, Repr

/-- Decoded relay order data (RelayOrder of the SDK).  The dispatcher
never inspects its fields, so it is opaque here. -/
structure SDKRelayOrder where
  encoded : String
deriving DecidableEq, Repr

/-- Interface of the external uniswapx-sdk parsers used by
`PostOrderBodyParser`.  A parse either returns decoded data or fails
with an error (modelled by its message string); `getOrderType` is the
SDK's re-derivation of the order type from decoded structure.  Theorems
quantify over this record, so they hold for every SDK behaviour. -/
structure UniswapXSDK where
  parseOrder : String → Nat → Except String SDKDutchOrder
  getOrderType : SDKDutchOrder → OrderTypeTag
  relayParseOrder : String → Nat → Except String SDKRelayOrder
  relayGetOrderType : SDKRelayOrder → OrderTypeTag
  v2Parse : String → Nat → Except String SDKV2DutchOrder
  dutchParse : String → Nat → Except String SDKDutchOrder

/-- Process environment consumed by the fallback path: the
`CUSTOM_REACTOR_ADDRESS` environment variable, absent or a string.
In the source, the emptiness test `!customReactorAddress` is JavaScript
falsiness, which also rejects the empty string. -/
structure Env where
  CUSTOM_REACTOR_ADDRESS : Option String
deriving DecidableEq, Repr

/-- Modelled from the spec: the CanonicalOrder tagged union produced by
the order model classes DutchV1Order, LimitOrder, DutchV2Order and
RelayOrder, whose sources are outside src/.  Each variant holds exactly
the arguments its constructor receives at the call sites in
`PostOrderBodyParser`: DutchV1Order and LimitOrder receive
(order, signature, chainId, quoteId); DutchV2Order receives
(order, signature, chainId, _, _, quoteId, requestId); RelayOrder
receives (order, signature, chainId) and hence no correlation ids. -/
inductive Order where
  | dutchV1 (order : SDKDutchOrder) (signature : String) (chainId : Nat)
      (quoteId : Option String)
  | limit (order : SDKDutchOrder) (signature : String) (chainId : Nat)
      (quoteId : Option String)
  | dutchV2 (order : SDKV2DutchOrder) (signature : String) (chainId : Nat)
      (quoteId : Option String) (requestId : Option String)
  | relay (order : SDKRelayOrder) (signature : String) (chainId : Nat)
deriving DecidableEq, Repr

/-- Modelled from the spec: the `orderType` property of the order model
classes, used by tryParseDutchV1Order and tryParseLimitOrder to check
the inferred tag of a parsed order. -/
def Order.orderType : Order → OrderTypeTag
  | .dutchV1 _ _ _ _ => .Dutch
  | .limit _ _ _ _ => .Limit
  | .dutchV2 _ _ _ _ _ => .Dutch_V2
  | .relay _ _ _ => .Relay

/-- Signature carried by a canonical order (every variant stores it). -/
def Order.sig : Order → String
  | .dutchV1 _ s _ _ => s
  | .limit _ s _ _ => s
  | .dutchV2 _ s _ _ _ => s
  | .relay _ s _ => s

/-- Chain id carried by a canonical order (every variant stores it). -/
def Order.chain : Order → Nat
  | .dutchV1 _ _ c _ => c
  | .limit _ _ c _ => c
  | .dutchV2 _ _ c _ _ => c
  | .relay _ _ c => c

/-- Quote id carried by a canonical order; the relay variant has none,
since its constructor receives no quoteId. -/
def Order.quoteId : Order → Option String
  | .dutchV1 _ _ _ q => q
  | .limit _ _ _ q => q
  | .dutchV2 _ _ _ q _ => q
  | .relay _ _ _ => none

/-- Request id carried by a canonical order; only the V2 variant has one,
since only the DutchV2Order constructor receives a requestId. -/
def Order.requestId : Order → Option String
  | .dutchV2 _ _ _ _ r => r
  | _ => none

/-- Structured decode failures surfaced to the caller.  `sdkFailure`
wraps an error thrown by an SDK parse (a byte-level decode failure);
`unexpectedOrderType` is UnexpectedOrderTypeError; `configMissing` is
the fallback's CUSTOM_REACTOR_ADDRESS-is-not-set error; and
`reactorMismatch` its invalid-reactor-address error. -/
inductive DecodeErr where
  | sdkFailure (message : String)
  | unexpectedOrderType (actual : OrderTypeTag)
  | configMissing
  | reactorMismatch
deriving DecidableEq, Repr

/-- Post-order request body fields consumed by `fromPostRequest`:
encodedOrder, signature, chainId, the optional declared orderType and
the optional correlation ids quoteId and requestId. -/
structure PostOrderRequestBody where
  encodedOrder : String
  signature : String
  chainId : Nat
  orderType : Option DeclaredOrderType
  quoteId : Option String
  requestId : Option String
deriving DecidableEq, Repr

/-- The primary block of tryParseDutchOrder: parse with the generic
UniswapXOrderParser, re-derive the order type, and tag the result as
Limit or DutchV1 accordingly; any other derived type raises
UnexpectedOrderTypeError.  Any failure of this block (SDK throw or the
UnexpectedOrderTypeError) is what the enclosing catch hands to the
fallback. -/
def primaryDutchDecode (sdk : UniswapXSDK) (encodedOrder signature : String)
    (chainId : Nat) (quoteId : Option String) : Except DecodeErr Order :=
  match sdk.parseOrder encodedOrder chainId with
  | .error message => .error (.sdkFailure message)
  | .ok order =>
    match sdk.getOrderType order with
    | .Limit => .ok (.limit order signature chainId quoteId)
    | .Dutch => .ok (.dutchV1 order signature chainId quoteId)
    | t => .error (.unexpectedOrderType t)

/-- Character-wise lowering of a string, modelling the JavaScript
`toLowerCase()` used by the reactor address comparison (reactor
addresses are ASCII hex strings, for which the two coincide). -/
def lowercase (s : String) : String := ⟨s.data.map Char.toLower⟩

/-- Equality of `Except` results is decidable when both components are;
used to evaluate the decoder on concrete inputs. -/
instance {ε α : Type} [DecidableEq ε] [DecidableEq α] :
    DecidableEq (Except ε α)
  | .ok a, .ok b =>
    if h : a = b then .isTrue (by rw [h]) else .isFalse (by simp [h])
  | .ok _, .error _ => .isFalse (by simp)
  | .error _, .ok _ => .isFalse (by simp)
  | .error a, .error b =>
    if h : a = b then .isTrue (by rw [h]) else .isFalse (by simp [h])

/-- The fallback block of tryParseDutchOrder: re-parse with the base
DutchOrder schema, require CUSTOM_REACTOR_ADDRESS to be set (JavaScript
falsiness also rejects the empty string), require the decoded reactor to
match it case-insensitively, and on success return a DutchV1Order.  The
inner catch of the source logs and re-throws this block's own error
unchanged. -/
def fallbackDutchDecode (sdk : UniswapXSDK) (env : Env)
    (encodedOrder signature : String) (chainId : Nat)
    (quoteId : Option String) : Except DecodeErr Order :=
  match sdk.dutchParse encodedOrder chainId with
  | .error message => .error (.sdkFailure message)
  | .ok order =>
    match env.CUSTOM_REACTOR_ADDRESS with
    | none => .error .configMissing
    | some customReactorAddress =>
      if customReactorAddress = "" then .error .configMissing
      else if lowercase order.reactor = lowercase customReactorAddress then
        .ok (.dutchV1 order signature chainId quoteId)
      else .error .reactorMismatch

/-- PostOrderBodyParser.tryParseDutchOrder: try the primary generic
decode; on any failure of it, run the fallback block, whose own outcome
(success or its own error, the outer caught error being shadowed) is
what the caller receives. -/
def tryParseDutchOrder (sdk : UniswapXSDK) (env : Env)
    (encodedOrder signature : String) (chainId : Nat)
    (quoteId : Option String) : Except DecodeErr Order :=
  match primaryDutchDecode sdk encodedOrder signature chainId quoteId with
  | .ok order => .ok order
  | .error _ => fallbackDutchDecode sdk env encodedOrder signature chainId quoteId

/-- PostOrderBodyParser.tryParseDutchV1Order: delegate to
tryParseDutchOrder, then require the parsed order's orderType to be
Dutch, raising UnexpectedOrderTypeError otherwise; the catch re-throws
every failure unchanged. -/
def tryParseDutchV1Order (sdk : UniswapXSDK) (env : Env)
    (encodedOrder signature : String) (chainId : Nat)
    (quoteId : Option String) : Except DecodeErr Order :=
  match tryParseDutchOrder sdk env encodedOrder signature chainId quoteId with
  | .error e => .error e
  | .ok order =>
    if order.orderType = .Dutch then .ok order
    else .error (.unexpectedOrderType order.orderType)

/-- PostOrderBodyParser.tryParseLimitOrder: delegate to
tryParseDutchOrder, then require the parsed order's orderType to be
Limit, raising UnexpectedOrderTypeError otherwise; the catch re-throws
every failure unchanged. -/
def tryParseLimitOrder (sdk : UniswapXSDK) (env : Env)
    (encodedOrder signature : String) (chainId : Nat)
    (quoteId : Option String) : Except DecodeErr Order :=
  match tryParseDutchOrder sdk env encodedOrder signature chainId quoteId with
  | .error e => .error e
  | .ok order =>
    if order.orderType = .Limit then .ok order
    else .error (.unexpectedOrderType order.orderType)

/-- PostOrderBodyParser.tryParseDutchV2Order: one-shot
CosignedV2DutchOrder.parse; on success wrap as a DutchV2Order carrying
quoteId and requestId, on failure re-throw unchanged.  No derived-type
check is performed on this path. -/
def tryParseDutchV2Order (sdk : UniswapXSDK)
    (encodedOrder signature : String) (chainId : Nat)
    (quoteId requestId : Option String) : Except DecodeErr Order :=
  match sdk.v2Parse encodedOrder chainId with
  | .error message => .error (.sdkFailure message)
  | .ok order => .ok (.dutchV2 order signature chainId quoteId requestId)

/-- PostOrderBodyParser.tryParseRelayOrder: parse with the
RelayOrderParser, re-derive the order type from the decoded structure,
and require it to be Relay; otherwise raise UnexpectedOrderTypeError.
The catch re-throws every failure unchanged. -/
def tryParseRelayOrder (sdk : UniswapXSDK)
    (encodedOrder signature : String) (chainId : Nat) :
    Except DecodeErr Order :=
  match sdk.relayParseOrder encodedOrder chainId with
  | .error message => .error (.sdkFailure message)
  | .ok order =>
    let orderType := sdk.relayGetOrderType order
    if orderType = .Relay then .ok (.relay order signature chainId)
    else .error (.unexpectedOrderType orderType)

/-- PostOrderBodyParser.fromPostRequest: dispatch on the declared
orderType of the body.  Dutch, Limit, Dutch_V2 and Relay route to their
respective try-parse methods; an absent orderType is the legacy format
routed to tryParseDutchOrder. -/
def fromPostRequest (sdk : UniswapXSDK) (env : Env)
    (body : PostOrderRequestBody) : Except DecodeErr Order :=
  match body.orderType with
  | some .Dutch =>
    tryParseDutchV1Order sdk env body.encodedOrder body.signature body.chainId body.quoteId
  | some .Limit =>
    tryParseLimitOrder sdk env body.encodedOrder body.signature body.chainId body.quoteId
  | some .Dutch_V2 =>
    tryParseDutchV2Order sdk body.encodedOrder body.signature body.chainId body.quoteId body.requestId
  | some .Relay =>
    tryParseRelayOrder sdk body.encodedOrder body.signature body.chainId
  | none =>
    tryParseDutchOrder sdk env body.encodedOrder body.signature body.chainId body.quoteId

/-- Ghost-instrumented tryParseDutchOrder: identical result, paired with
a flag recording whether the fallback block executed (that is, whether
the primary block failed and control entered the catch). -/
def tryParseDutchOrderI (sdk : UniswapXSDK) (env : Env)
    (encodedOrder signature : String) (chainId : Nat)
    (quoteId : Option String) : Except DecodeErr Order × Bool :=
  match primaryDutchDecode sdk encodedOrder signature chainId quoteId with
  | .ok order => (.ok order, false)
  | .error _ => (fallbackDutchDecode sdk env encodedOrder signature chainId quoteId, true)

/-- Ghost-instrumented fromPostRequest: identical result, paired with a
flag recording whether the legacy custom-reactor fallback executed
anywhere during the dispatch. -/
def fromPostRequestI (sdk : UniswapXSDK) (env : Env)
    (body : PostOrderRequestBody) : Except DecodeErr Order × Bool :=
  match body.orderType with
  | some .Dutch =>
    let r := tryParseDutchOrderI sdk env body.encodedOrder body.signature body.chainId body.quoteId
    (match r.1 with
     | .error e => .error e
     | .ok order =>
       if order.orderType = .Dutch then .ok order
       else .error (.unexpectedOrderType order.orderType), r.2)
  | some .Limit =>
    let r := tryParseDutchOrderI sdk env body.encodedOrder body.signature body.chainId body.quoteId
    (match r.1 with
     | .error e => .error e
     | .ok order =>
       if order.orderType = .Limit then .ok order
       else .error (.unexpectedOrderType order.orderType), r.2)
  | some .Dutch_V2 =>
    (tryParseDutchV2Order sdk body.encodedOrder body.signature body.chainId body.quoteId body.requestId, false)
  | some .Relay =>
    (tryParseRelayOrder sdk body.encodedOrder body.signature body.chainId, false)
  | none =>
    tryParseDutchOrderI sdk env body.encodedOrder body.signature body.chainId body.quoteId

/-! Concrete instantiations used by counterexamples and witnesses. -/

/-- Concrete SDK whose generic parse always fails, whose base-schema
re-parse succeeds with reactor `0xreactor`, and whose other parsers
fail: it drives the legacy fallback path. -/
def fbSDK : UniswapXSDK where
  parseOrder := fun _ _ => .error "generic parse failed"
  getOrderType := fun _ => .Dutch
  relayParseOrder := fun _ _ => .error "relay parse failed"
  relayGetOrderType := fun _ => .Relay
  v2Parse := fun _ _ => .error "v2 parse failed"
  dutchParse := fun _ _ => .ok ⟨"0xreactor", 3, 7, 0⟩

/-- Environment configuring the allow-listed custom reactor address,
differing from `0xreactor` only in letter case. -/
def fbEnv : Env := ⟨some "0xReactor"⟩

/-- Environment configuring an allow-listed reactor address that does
not match `0xreactor`. -/
def fbEnvOther : Env := ⟨some "0xother"⟩

/-- Legacy request body: no declared orderType. -/
def legacyBody : PostOrderRequestBody :=
  ⟨"0xenc", "0xsig", 1, none, none, none⟩

/-- Request body declaring orderType Dutch. -/
def dutchBody : PostOrderRequestBody :=
  ⟨"0xenc", "0xsig", 1, some .Dutch, none, none⟩

/-! Theorems settling the claims. -/

/-- C1, counterexample: with no declared orderType, a generic decode
failing with the SDK error `generic parse failed` and a fallback failing
with the invalid-reactor-address error, `fromPostRequest` reports the
fallback's reactor-mismatch failure, not the generic decoder's failure —
the inner catch of `tryParseDutchOrder` shadows the outer error and
re-throws its own. -/
theorem c1_counterexample :
    primaryDutchDecode fbSDK "0xenc" "0xsig" 1 none =
      .error (.sdkFailure "generic parse failed") ∧
    fallbackDutchDecode fbSDK fbEnvOther "0xenc" "0xsig" 1 none =
      .error .reactorMismatch ∧
    fromPostRequest fbSDK fbEnvOther legacyBody = .error .reactorMismatch ∧
    DecodeErr.reactorMismatch ≠ DecodeErr.sdkFailure "generic parse failed" := by
  refine ⟨rfl, by decide, by decide, by decide⟩

/-- C1, amended: for every submission with orderType absent, if the
primary generic decode fails and the legacy fallback also fails, the
failure reported to the caller is the fallback's failure, not the
generic decoder's. -/
theorem c1_fallback_error_reported (sdk : UniswapXSDK) (env : Env)
    (body : PostOrderRequestBody) (e₁ e₂ : DecodeErr)
    (htype : body.orderType = none)
    (hprimary : primaryDutchDecode sdk body.encodedOrder body.signature
      body.chainId body.quoteId = .error e₁)
    (hfallback : fallbackDutchDecode sdk env body.encodedOrder body.signature
      body.chainId body.quoteId = .error e₂) :
    fromPostRequest sdk env body = .error e₂ := by
  simp [fromPostRequest, htype, tryParseDutchOrder, hprimary, hfallback]

/-- C1, witness: the amended theorem applied at the concrete fallback
scenario of the counterexample. -/
theorem c1_fallback_error_reported_witness :
    fromPostRequest fbSDK fbEnvOther legacyBody = .error .reactorMismatch :=
  c1_fallback_error_reported fbSDK fbEnvOther legacyBody
    (.sdkFailure "generic parse failed") .reactorMismatch rfl rfl (by decide)

/-- C2, counterexample: a submission with declared orderType Dutch whose
generic decode fails reaches the legacy fallback (the instrumented
dispatcher records the fallback executing) and even succeeds through it,
because tryParseDutchV1Order delegates to tryParseDutchOrder, which
contains the fallback. -/
theorem c2_counterexample :
    dutchBody.orderType = some DeclaredOrderType.Dutch ∧
    primaryDutchDecode fbSDK "0xenc" "0xsig" 1 none =
      .error (.sdkFailure "generic parse failed") ∧
    (fromPostRequestI fbSDK fbEnv dutchBody).2 = true ∧
    fromPostRequest fbSDK fbEnv dutchBody =
      .ok (.dutchV1 ⟨"0xreactor", 3, 7, 0⟩ "0xsig" 1 none) := by
  refine ⟨rfl, rfl, by decide, by decide⟩

/-- C2, amended: the legacy custom-reactor fallback executes exactly
when the generic structural decoder fails and the declared orderType is
absent, Dutch, or Limit; for Dutch_V2 and Relay submissions it is never
reached.  The instrumented dispatcher returns the same result as the
original together with a flag recording fallback execution. -/
theorem c2_fallback_reachability (sdk : UniswapXSDK) (env : Env)
    (body : PostOrderRequestBody) :
    (fromPostRequestI sdk env body).1 = fromPostRequest sdk env body ∧
    ((fromPostRequestI sdk env body).2 = true ↔
      ((body.orderType = none ∨ body.orderType = some .Dutch ∨
          body.orderType = some .Limit) ∧
        ∃ e, primaryDutchDecode sdk body.encodedOrder body.signature
          body.chainId body.quoteId = .error e)) := by
  obtain ⟨enc, sig, chain, otype, quote, req⟩ := body
  match otype with
  | none =>
    cases hp : primaryDutchDecode sdk enc sig chain quote <;>
      simp [fromPostRequest, fromPostRequestI, tryParseDutchOrder,
        tryParseDutchOrderI, hp]
  | some .Dutch =>
    cases hp : primaryDutchDecode sdk enc sig chain quote <;>
      simp [fromPostRequest, fromPostRequestI, tryParseDutchOrder,
        tryParseDutchOrderI, tryParseDutchV1Order, hp]
  | some .Limit =>
    cases hp : primaryDutchDecode sdk enc sig chain quote <;>
      simp [fromPostRequest, fromPostRequestI, tryParseDutchOrder,
        tryParseDutchOrderI, tryParseLimitOrder, hp]
  | some .Dutch_V2 =>
    simp [fromPostRequest, fromPostRequestI]
  | some .Relay =>
    simp [fromPostRequest, fromPostRequestI]

/-- C3: on the fallback path (orderType absent, generic decode failed),
when the base-schema re-decode succeeds and a non-empty allow-listed
reactor address is configured, the decode succeeds as a DutchV1 order
if and only if the decoded reactor matches the configured address
case-insensitively, and a non-matching reactor yields the
reactor-mismatch (FallbackReactorMismatch) failure. -/
theorem c3_fallback_reactor_allowlist (sdk : UniswapXSDK) (env : Env)
    (body : PostOrderRequestBody) (order : SDKDutchOrder) (custom : String)
    (e : DecodeErr)
    (htype : body.orderType = none)
    (hprimary : primaryDutchDecode sdk body.encodedOrder body.signature
      body.chainId body.quoteId = .error e)
    (hredecode : sdk.dutchParse body.encodedOrder body.chainId = .ok order)
    (hconfig : env.CUSTOM_REACTOR_ADDRESS = some custom)
    (hnonempty : custom ≠ "") :
    (fromPostRequest sdk env body =
        .ok (.dutchV1 order body.signature body.chainId body.quoteId) ↔
      lowercase order.reactor = lowercase custom) ∧
    (lowercase order.reactor ≠ lowercase custom →
      fromPostRequest sdk env body = .error .reactorMismatch) := by
  have hdisp : fromPostRequest sdk env body =
      fallbackDutchDecode sdk env body.encodedOrder body.signature
        body.chainId body.quoteId := by
    simp [fromPostRequest, htype, tryParseDutchOrder, hprimary]
  rw [hdisp]
  unfold fallbackDutchDecode
  rw [hredecode, hconfig]
  by_cases hm : lowercase order.reactor = lowercase custom <;>
    simp [hnonempty, hm]

/-- C3, witness: the fallback scenario with configured address
`0xReactor` and decoded reactor `0xreactor`, matching up to case. -/
theorem c3_fallback_reactor_allowlist_witness :
    (fromPostRequest fbSDK fbEnv legacyBody =
        .ok (.dutchV1 ⟨"0xreactor", 3, 7, 0⟩ "0xsig" 1 none) ↔
      lowercase (SDKDutchOrder.mk "0xreactor" 3 7 0).reactor =
        lowercase "0xReactor") ∧
    (lowercase (SDKDutchOrder.mk "0xreactor" 3 7 0).reactor ≠
        lowercase "0xReactor" →
      fromPostRequest fbSDK fbEnv legacyBody = .error .reactorMismatch) :=
  c3_fallback_reactor_allowlist fbSDK fbEnv legacyBody ⟨"0xreactor", 3, 7, 0⟩
    "0xReactor" (.sdkFailure "generic parse failed") rfl rfl rfl rfl
    (by decide)

/-- C4: on the fallback path (orderType absent, generic decode failed),
when the base-schema re-decode succeeds but no allow-listed reactor
address is configured, the decode fails with the configuration-missing
failure (FallbackConfigurationMissing), a kind distinct from every
byte-level decode failure. -/
theorem c4_fallback_config_missing (sdk : UniswapXSDK) (env : Env)
    (body : PostOrderRequestBody) (order : SDKDutchOrder) (e : DecodeErr)
    (htype : body.orderType = none)
    (hprimary : primaryDutchDecode sdk body.encodedOrder body.signature
      body.chainId body.quoteId = .error e)
    (hredecode : sdk.dutchParse body.encodedOrder body.chainId = .ok order)
    (hconfig : env.CUSTOM_REACTOR_ADDRESS = none) :
    fromPostRequest sdk env body = .error .configMissing ∧
    ∀ m, DecodeErr.configMissing ≠ DecodeErr.sdkFailure m := by
  have hdisp : fromPostRequest sdk env body =
      fallbackDutchDecode sdk env body.encodedOrder body.signature
        body.chainId body.quoteId := by
    simp [fromPostRequest, htype, tryParseDutchOrder, hprimary]
  rw [hdisp]
  unfold fallbackDutchDecode
  rw [hredecode, hconfig]
  simp

/-- C4, witness: the fallback scenario with CUSTOM_REACTOR_ADDRESS
unset. -/
theorem c4_fallback_config_missing_witness :
    fromPostRequest fbSDK ⟨none⟩ legacyBody = .error .configMissing ∧
    ∀ m, DecodeErr.configMissing ≠ DecodeErr.sdkFailure m :=
  c4_fallback_config_missing fbSDK ⟨none⟩ legacyBody ⟨"0xreactor", 3, 7, 0⟩
    (.sdkFailure "generic parse failed") rfl rfl rfl rfl

/-- Concrete SDK whose generic parse succeeds with a Dutch-classified
order and whose other parsers fail. -/
def okSDK : UniswapXSDK where
  parseOrder := fun _ _ => .ok ⟨"0xreactor", 3, 7, 0⟩
  getOrderType := fun _ => .Dutch
  relayParseOrder := fun _ _ => .error "relay parse failed"
  relayGetOrderType := fun _ => .Relay
  v2Parse := fun _ _ => .error "v2 parse failed"
  dutchParse := fun _ _ => .error "base parse failed"

/-- Concrete SDK whose relay and V2 parses succeed, with the relay
derived type agreeing (Relay). -/
def relaySDK : UniswapXSDK where
  parseOrder := fun _ _ => .error "generic parse failed"
  getOrderType := fun _ => .Dutch
  relayParseOrder := fun _ _ => .ok ⟨"relay-payload"⟩
  relayGetOrderType := fun _ => .Relay
  v2Parse := fun _ _ => .ok ⟨"0xcosigner", "v2-payload"⟩
  dutchParse := fun _ _ => .error "base parse failed"

/-- Concrete SDK exhibiting schema/decoder drift: the relay schema
parses but the derived order type is Limit, not Relay. -/
def driftSDK : UniswapXSDK where
  parseOrder := fun _ _ => .error "generic parse failed"
  getOrderType := fun _ => .Dutch
  relayParseOrder := fun _ _ => .ok ⟨"relay-payload"⟩
  relayGetOrderType := fun _ => .Limit
  v2Parse := fun _ _ => .error "v2 parse failed"
  dutchParse := fun _ _ => .error "base parse failed"

/-- Concrete SDK whose generic parse fails and whose base-schema
re-parse yields an order with equal decay timestamps — the shape the
generic classification would tag as Limit (its getOrderType returns
Limit on every order). -/
def limitShapeSDK : UniswapXSDK where
  parseOrder := fun _ _ => .error "generic parse failed"
  getOrderType := fun _ => .Limit
  relayParseOrder := fun _ _ => .error "relay parse failed"
  relayGetOrderType := fun _ => .Relay
  v2Parse := fun _ _ => .error "v2 parse failed"
  dutchParse := fun _ _ => .ok ⟨"0xreactor", 5, 5, 0⟩

/-- Request body declaring orderType Limit, sharing encodedOrder and
chainId with `legacyBody`. -/
def limitBody : PostOrderRequestBody :=
  ⟨"0xenc", "0xsig", 1, some .Limit, none, none⟩

/-- Request body declaring orderType Relay, with both correlation ids
present. -/
def relayBody : PostOrderRequestBody :=
  ⟨"0xenc", "0xsig", 1, some .Relay, some "quote-1", some "req-1"⟩

/-- Request body declaring orderType Dutch_V2, with both correlation ids
present. -/
def v2Body : PostOrderRequestBody :=
  ⟨"0xenc", "0xsig", 1, some .Dutch_V2, some "quote-1", some "req-1"⟩

/-- C5, counterexample: two submissions with identical encodedOrder
bytes and chainId but different declared orderType (absent versus
Limit) decode to different results: the first succeeds as DutchV1, the
second fails with UnexpectedOrderType. -/
theorem c5_counterexample :
    legacyBody.encodedOrder = limitBody.encodedOrder ∧
    legacyBody.chainId = limitBody.chainId ∧
    fromPostRequest okSDK fbEnv legacyBody ≠
      fromPostRequest okSDK fbEnv limitBody := by
  refine ⟨rfl, rfl, by decide⟩

/-- C5, amended: decoding is deterministic over the full submission:
for every pair of submissions identical in all fields (encodedOrder,
signature, chainId, declared orderType, quoteId, requestId), under the
same SDK and environment, decoding yields identical results. -/
theorem c5_determinism (sdk : UniswapXSDK) (env : Env)
    (b b2 : PostOrderRequestBody)
    (h1 : b.encodedOrder = b2.encodedOrder) (h2 : b.signature = b2.signature)
    (h3 : b.chainId = b2.chainId) (h4 : b.orderType = b2.orderType)
    (h5 : b.quoteId = b2.quoteId) (h6 : b.requestId = b2.requestId) :
    fromPostRequest sdk env b = fromPostRequest sdk env b2 := by
  obtain ⟨ea, sa, ca, oa, qa, ra⟩ := b
  obtain ⟨eb, sb, cb, ob, qb, rb⟩ := b2
  cases h1; cases h2; cases h3; cases h4; cases h5; cases h6; rfl

/-- C5, witness: determinism applied at a concrete submission. -/
theorem c5_determinism_witness :
    fromPostRequest okSDK fbEnv legacyBody =
      fromPostRequest okSDK fbEnv ⟨"0xenc", "0xsig", 1, none, none, none⟩ :=
  c5_determinism okSDK fbEnv legacyBody
    ⟨"0xenc", "0xsig", 1, none, none, none⟩ rfl rfl rfl rfl rfl rfl

/-- An ok result of the primary generic decode is a DutchV1 or Limit
order carrying the submission's signature, chainId and quoteId. -/
lemma primaryDutchDecode_ok_shape (sdk : UniswapXSDK)
    (enc sig : String) (chain : Nat) (quote : Option String) (o : Order)
    (h : primaryDutchDecode sdk enc sig chain quote = .ok o) :
    (∃ ord, o = .dutchV1 ord sig chain quote) ∨
      (∃ ord, o = .limit ord sig chain quote) := by
  unfold primaryDutchDecode at h
  split at h
  · exact absurd h (by simp)
  · rename_i ord heq
    split at h
    · exact .inr ⟨ord, (Except.ok.inj h).symm⟩
    · exact .inl ⟨ord, (Except.ok.inj h).symm⟩
    · exact absurd h (by simp)

/-- An ok result of the fallback is a DutchV1 order built from the
base-schema re-decode, carrying the submission's signature, chainId and
quoteId. -/
lemma fallbackDutchDecode_ok_shape (sdk : UniswapXSDK) (env : Env)
    (enc sig : String) (chain : Nat) (quote : Option String) (o : Order)
    (h : fallbackDutchDecode sdk env enc sig chain quote = .ok o) :
    ∃ ord, sdk.dutchParse enc chain = .ok ord ∧
      o = .dutchV1 ord sig chain quote := by
  unfold fallbackDutchDecode at h
  split at h
  · exact absurd h (by simp)
  · rename_i ord hp
    split at h
    · exact absurd h (by simp)
    · split at h
      · exact absurd h (by simp)
      · split at h
        · exact ⟨ord, hp, (Except.ok.inj h).symm⟩
        · exact absurd h (by simp)

/-- An ok result of tryParseDutchOrder (primary or fallback) is a
DutchV1 or Limit order carrying the submission's signature, chainId and
quoteId. -/
lemma tryParseDutchOrder_ok_shape (sdk : UniswapXSDK) (env : Env)
    (enc sig : String) (chain : Nat) (quote : Option String) (o : Order)
    (h : tryParseDutchOrder sdk env enc sig chain quote = .ok o) :
    (∃ ord, o = .dutchV1 ord sig chain quote) ∨
      (∃ ord, o = .limit ord sig chain quote) := by
  unfold tryParseDutchOrder at h
  split at h
  · rename_i o2 hp
    exact (Except.ok.inj h) ▸ primaryDutchDecode_ok_shape sdk enc sig chain quote o2 hp
  · obtain ⟨ord, _, ho⟩ := fallbackDutchDecode_ok_shape sdk env enc sig chain quote o h
    exact .inl ⟨ord, ho⟩

/-- C6, counterexample: a Relay submission carrying a quoteId decodes
successfully, but the resulting canonical order carries no quoteId —
tryParseRelayOrder is invoked without the body's quoteId. -/
theorem c6_counterexample :
    relayBody.quoteId = some "quote-1" ∧
    fromPostRequest relaySDK fbEnv relayBody =
      .ok (.relay ⟨"relay-payload"⟩ "0xsig" 1) ∧
    Order.quoteId (.relay ⟨"relay-payload"⟩ "0xsig" 1) = none := by
  refine ⟨rfl, by decide, rfl⟩

/-- C6, amended: every successfully decoded submission carries the
signature and the chainId; DutchV1, Limit and DutchV2 results carry the
input quoteId while Relay results carry none; DutchV2 results carry the
input requestId while all other variants carry none. -/
theorem c6_carried_fields (sdk : UniswapXSDK) (env : Env)
    (body : PostOrderRequestBody) (o : Order)
    (h : fromPostRequest sdk env body = .ok o) :
    o.sig = body.signature ∧ o.chain = body.chainId ∧
    (o.orderType ≠ .Relay → o.quoteId = body.quoteId) ∧
    (o.orderType = .Relay → o.quoteId = none) ∧
    (o.orderType = .Dutch_V2 → o.requestId = body.requestId) ∧
    (o.orderType ≠ .Dutch_V2 → o.requestId = none) := by
  obtain ⟨enc, sig, chain, otype, quote, req⟩ := body
  match otype with
  | none =>
    simp only [fromPostRequest] at h
    rcases tryParseDutchOrder_ok_shape sdk env enc sig chain quote o h with
      ⟨ord, rfl⟩ | ⟨ord, rfl⟩ <;>
      simp [Order.sig, Order.chain, Order.quoteId, Order.requestId,
        Order.orderType]
  | some .Dutch =>
    simp only [fromPostRequest] at h
    unfold tryParseDutchV1Order at h
    split at h
    · exact absurd h (by simp)
    · rename_i o2 ht
      split at h
      · rename_i hd
        obtain rfl := Except.ok.inj h
        rcases tryParseDutchOrder_ok_shape sdk env enc sig chain quote o2 ht with
          ⟨ord, rfl⟩ | ⟨ord, rfl⟩ <;>
          simp_all [Order.sig, Order.chain, Order.quoteId, Order.requestId,
            Order.orderType]
      · exact absurd h (by simp)
  | some .Limit =>
    simp only [fromPostRequest] at h
    unfold tryParseLimitOrder at h
    split at h
    · exact absurd h (by simp)
    · rename_i o2 ht
      split at h
      · rename_i hd
        obtain rfl := Except.ok.inj h
        rcases tryParseDutchOrder_ok_shape sdk env enc sig chain quote o2 ht with
          ⟨ord, rfl⟩ | ⟨ord, rfl⟩ <;>
          simp_all [Order.sig, Order.chain, Order.quoteId, Order.requestId,
            Order.orderType]
      · exact absurd h (by simp)
  | some .Dutch_V2 =>
    simp only [fromPostRequest] at h
    unfold tryParseDutchV2Order at h
    split at h
    · exact absurd h (by simp)
    · rename_i ord hp
      obtain rfl := Except.ok.inj h
      simp [Order.sig, Order.chain, Order.quoteId, Order.requestId,
        Order.orderType]
  | some .Relay =>
    simp only [fromPostRequest] at h
    unfold tryParseRelayOrder at h
    split at h
    · exact absurd h (by simp)
    · rename_i ord hp
      by_cases hr : sdk.relayGetOrderType ord = .Relay
      · simp [hr] at h
        obtain rfl := h.symm
        simp [Order.sig, Order.chain, Order.quoteId, Order.requestId,
          Order.orderType]
      · simp [hr] at h

/-- C6, witness: the carried-fields theorem applied at a concrete
successful DutchV2 decode. -/
theorem c6_carried_fields_witness :
    (Order.dutchV2 ⟨"0xcosigner", "v2-payload"⟩ "0xsig" 1 (some "quote-1")
        (some "req-1")).sig = v2Body.signature ∧
    (Order.dutchV2 ⟨"0xcosigner", "v2-payload"⟩ "0xsig" 1 (some "quote-1")
        (some "req-1")).chain = v2Body.chainId ∧
    ((Order.dutchV2 ⟨"0xcosigner", "v2-payload"⟩ "0xsig" 1 (some "quote-1")
        (some "req-1")).orderType ≠ .Relay →
      (Order.dutchV2 ⟨"0xcosigner", "v2-payload"⟩ "0xsig" 1 (some "quote-1")
        (some "req-1")).quoteId = v2Body.quoteId) ∧
    ((Order.dutchV2 ⟨"0xcosigner", "v2-payload"⟩ "0xsig" 1 (some "quote-1")
        (some "req-1")).orderType = .Relay →
      (Order.dutchV2 ⟨"0xcosigner", "v2-payload"⟩ "0xsig" 1 (some "quote-1")
        (some "req-1")).quoteId = none) ∧
    ((Order.dutchV2 ⟨"0xcosigner", "v2-payload"⟩ "0xsig" 1 (some "quote-1")
        (some "req-1")).orderType = .Dutch_V2 →
      (Order.dutchV2 ⟨"0xcosigner", "v2-payload"⟩ "0xsig" 1 (some "quote-1")
        (some "req-1")).requestId = v2Body.requestId) ∧
    ((Order.dutchV2 ⟨"0xcosigner", "v2-payload"⟩ "0xsig" 1 (some "quote-1")
        (some "req-1")).orderType ≠ .Dutch_V2 →
      (Order.dutchV2 ⟨"0xcosigner", "v2-payload"⟩ "0xsig" 1 (some "quote-1")
        (some "req-1")).requestId = none) :=
  c6_carried_fields relaySDK fbEnv v2Body
    (.dutchV2 ⟨"0xcosigner", "v2-payload"⟩ "0xsig" 1 (some "quote-1")
      (some "req-1")) (by decide)

/-- C7: for a submission declaring orderType Relay whose payload decodes
under the relay schema but whose re-derived order type is not Relay,
decoding fails with UnexpectedOrderType carrying the derived type; the
failure is terminal (no success is possible) and the result does not
depend on the environment, so the fallback is never attempted. -/
theorem c7_relay_defensive_check (sdk : UniswapXSDK) (env : Env)
    (body : PostOrderRequestBody) (ord : SDKRelayOrder)
    (htype : body.orderType = some .Relay)
    (hparse : sdk.relayParseOrder body.encodedOrder body.chainId = .ok ord)
    (hdrift : sdk.relayGetOrderType ord ≠ .Relay) :
    fromPostRequest sdk env body =
      .error (.unexpectedOrderType (sdk.relayGetOrderType ord)) ∧
    (∀ env2, fromPostRequest sdk env2 body = fromPostRequest sdk env body) ∧
    ∀ o, fromPostRequest sdk env body ≠ .ok o := by
  have hmain : ∀ env2 : Env, fromPostRequest sdk env2 body =
      .error (.unexpectedOrderType (sdk.relayGetOrderType ord)) := by
    intro env2
    simp [fromPostRequest, htype, tryParseRelayOrder, hparse, hdrift]
  refine ⟨hmain env, fun env2 => by rw [hmain env2, hmain env], fun o => ?_⟩
  rw [hmain env]
  simp

/-- C7, witness: the defensive check applied at a drifting SDK whose
relay schema parses but derives type Limit. -/
theorem c7_relay_defensive_check_witness :
    fromPostRequest driftSDK fbEnv relayBody =
      .error (.unexpectedOrderType
        (driftSDK.relayGetOrderType ⟨"relay-payload"⟩)) ∧
    (∀ env2, fromPostRequest driftSDK env2 relayBody =
      fromPostRequest driftSDK fbEnv relayBody) ∧
    ∀ o, fromPostRequest driftSDK fbEnv relayBody ≠ .ok o :=
  c7_relay_defensive_check driftSDK fbEnv relayBody ⟨"relay-payload"⟩
    rfl rfl (by decide)

/-- C8: for a submission declaring orderType Dutch_V2, only the V2
decoder is consulted: the result is unchanged under any variation of
the environment and of every SDK component other than the V2 parse
(in particular the generic decoder and the fallback are never
attempted), and a V2 parse failure is terminal, surfacing as that very
decode failure. -/
theorem c8_dutchV2_exclusive (sdk sdk2 : UniswapXSDK) (env env2 : Env)
    (body : PostOrderRequestBody)
    (htype : body.orderType = some .Dutch_V2)
    (hagree : sdk.v2Parse = sdk2.v2Parse) :
    fromPostRequest sdk env body = fromPostRequest sdk2 env2 body ∧
    ∀ m, sdk.v2Parse body.encodedOrder body.chainId = .error m →
      fromPostRequest sdk env body = .error (.sdkFailure m) := by
  constructor
  · simp [fromPostRequest, htype, tryParseDutchV2Order, hagree]
  · intro m hm
    simp [fromPostRequest, htype, tryParseDutchV2Order, hm]

/-- C8, witness: two SDKs sharing only the failing V2 parser give the
same terminal failure on a Dutch_V2 submission. -/
theorem c8_dutchV2_exclusive_witness :
    fromPostRequest okSDK fbEnv
        ⟨"0xenc", "0xsig", 1, some .Dutch_V2, none, none⟩ =
      fromPostRequest driftSDK ⟨none⟩
        ⟨"0xenc", "0xsig", 1, some .Dutch_V2, none, none⟩ ∧
    ∀ m, okSDK.v2Parse "0xenc" 1 = .error m →
      fromPostRequest okSDK fbEnv
        ⟨"0xenc", "0xsig", 1, some .Dutch_V2, none, none⟩ =
        .error (.sdkFailure m) :=
  c8_dutchV2_exclusive okSDK driftSDK fbEnv ⟨none⟩
    ⟨"0xenc", "0xsig", 1, some .Dutch_V2, none, none⟩ rfl rfl

/-- C9: every successful result of the legacy custom-reactor fallback
is tagged DutchV1 and built from the base-schema re-decode — never a
Limit-tagged order — irrespective of the re-decoded order's decay
timestamps or of what the generic classification would say about it. -/
theorem c9_fallback_always_dutchV1 (sdk : UniswapXSDK) (env : Env)
    (enc sig : String) (chain : Nat) (quote : Option String) (o : Order)
    (h : fallbackDutchDecode sdk env enc sig chain quote = .ok o) :
    o.orderType = .Dutch ∧
    (∃ ord, sdk.dutchParse enc chain = .ok ord ∧
      o = .dutchV1 ord sig chain quote) ∧
    ∀ ord s c q, o ≠ .limit ord s c q := by
  obtain ⟨ord, hp, rfl⟩ :=
    fallbackDutchDecode_ok_shape sdk env enc sig chain quote o h
  refine ⟨rfl, ⟨ord, hp, rfl⟩, ?_⟩
  intro ord2 s c q hcontra
  exact Order.noConfusion hcontra

/-- C9, witness: an SDK whose base re-decode yields equal decay
timestamps (the shape the generic classification tags as Limit, and
whose getOrderType indeed returns Limit) still produces a
DutchV1-tagged fallback result. -/
theorem c9_fallback_always_dutchV1_witness :
    (Order.dutchV1 ⟨"0xreactor", 5, 5, 0⟩ "0xsig" 1 none).orderType =
      .Dutch ∧
    (∃ ord, limitShapeSDK.dutchParse "0xenc" 1 = .ok ord ∧
      Order.dutchV1 ⟨"0xreactor", 5, 5, 0⟩ "0xsig" 1 none =
        .dutchV1 ord "0xsig" 1 none) ∧
    ∀ ord s c q, Order.dutchV1 ⟨"0xreactor", 5, 5, 0⟩ "0xsig" 1 none ≠
      .limit ord s c q :=
  c9_fallback_always_dutchV1 limitShapeSDK fbEnv "0xenc" "0xsig" 1 none
    (.dutchV1 ⟨"0xreactor", 5, 5, 0⟩ "0xsig" 1 none) (by decide)

/-- C10: for a submission declaring orderType Dutch_V2, whenever the V2
schema parse succeeds a DutchV2 order is returned with no check of the
decoded structure's derived type, and UnexpectedOrderType is never
raised on this path, whatever the parse outcome. -/
theorem c10_v2_no_defensive_check (sdk : UniswapXSDK) (env : Env)
    (body : PostOrderRequestBody)
    (htype : body.orderType = some .Dutch_V2) :
    (∀ ord, sdk.v2Parse body.encodedOrder body.chainId = .ok ord →
      fromPostRequest sdk env body =
        .ok (.dutchV2 ord body.signature body.chainId body.quoteId
          body.requestId)) ∧
    ∀ t, fromPostRequest sdk env body ≠ .error (.unexpectedOrderType t) := by
  constructor
  · intro ord hp
    simp [fromPostRequest, htype, tryParseDutchV2Order, hp]
  · intro t
    cases hp : sdk.v2Parse body.encodedOrder body.chainId <;>
      simp [fromPostRequest, htype, tryParseDutchV2Order, hp]

/-- C10, witness: an SDK whose V2 schema parses (relaySDK) returns a
DutchV2 order for a Dutch_V2 submission without any derived-type
check. -/
theorem c10_v2_no_defensive_check_witness :
    (∀ ord, relaySDK.v2Parse "0xenc" 1 = .ok ord →
      fromPostRequest relaySDK fbEnv v2Body =
        .ok (.dutchV2 ord "0xsig" 1 (some "quote-1") (some "req-1"))) ∧
    ∀ t, fromPostRequest relaySDK fbEnv v2Body ≠
      .error (.unexpectedOrderType t) :=
  c10_v2_no_defensive_check relaySDK fbEnv v2Body rfl

end UniswapXService
